import Mathlib

/-!
Shallow embedding of the solar-system visualization's camera-control and
orbit-kinematics core: the `OrbitControls` camera controller
(orbit-controls.js), the `SolarSystem` orbital motion model and the camera
focus transition (script.js).  JavaScript numbers are modelled as real
numbers; the graphics runtime's vector, quaternion and spherical primitives
(THREE.Vector3 / Quaternion / Spherical, r128) are embedded below following
their library semantics.
-/

namespace SolarSpec

/-- THREE.Vector3: external math primitive of the graphics runtime. -/
@[ext]
structure Vec3 where
  x : ℝ
  y : ℝ
  z : ℝ

namespace Vec3

def add (a b : Vec3) : Vec3 := ⟨a.x + b.x, a.y + b.y, a.z + b.z⟩

def sub (a b : Vec3) : Vec3 := ⟨a.x - b.x, a.y - b.y, a.z - b.z⟩

/-- multiplyScalar. -/
def smul (c : ℝ) (a : Vec3) : Vec3 := ⟨c * a.x, c * a.y, c * a.z⟩

instance : Add Vec3 := ⟨add⟩

instance : Sub Vec3 := ⟨sub⟩

instance : SMul ℝ Vec3 := ⟨smul⟩

instance : Zero Vec3 := ⟨⟨0, 0, 0⟩⟩

def dot (a b : Vec3) : ℝ := a.x * b.x + a.y * b.y + a.z * b.z

/-- crossVectors. -/
def cross (a b : Vec3) : Vec3 :=
  ⟨a.y * b.z - a.z * b.y, a.z * b.x - a.x * b.z, a.x * b.y - a.y * b.x⟩

def lengthSq (a : Vec3) : ℝ := a.x * a.x + a.y * a.y + a.z * a.z

noncomputable def length (a : Vec3) : ℝ := Real.sqrt a.lengthSq

/-- distanceTo. -/
noncomputable def distanceTo (a b : Vec3) : ℝ := (a - b).length

/-- THREE.Vector3.normalize divides by the length, or by 1 when the length
is zero (`this.divideScalar(this.length() || 1)`). -/
noncomputable def normalize (a : Vec3) : Vec3 :=
  if a.length = 0 then a else (1 / a.length) • a

/-- Method `this.lerp(v, alpha)`: moves the vector toward `v` by fraction `alpha`
of the remaining difference. -/
def lerp (t v : Vec3) (alpha : ℝ) : Vec3 := t + alpha • (v - t)

/-- Method `lerpVectors(v1, v2, alpha)`: interpolation between two fixed vectors. -/
def lerpVectors (v1 v2 : Vec3) (alpha : ℝ) : Vec3 := v1 + alpha • (v2 - v1)

end Vec3

/-- THREE.Quaternion: external math primitive of the graphics runtime. -/
@[ext]
structure Quat where
  x : ℝ
  y : ℝ
  z : ℝ
  w : ℝ

namespace Quat

/-- JavaScript Number.EPSILON = 2^(-52). -/
noncomputable def numberEpsilon : ℝ := 1 / 4503599627370496

noncomputable def normalize (q : Quat) : Quat :=
  let l := Real.sqrt (q.x * q.x + q.y * q.y + q.z * q.z + q.w * q.w)
  if l = 0 then ⟨0, 0, 0, 1⟩ else ⟨q.x / l, q.y / l, q.z / l, q.w / l⟩

/-- THREE.Quaternion.setFromUnitVectors (r128). -/
noncomputable def setFromUnitVectors (vFrom vTo : Vec3) : Quat :=
  let r := vFrom.dot vTo + 1
  if r < numberEpsilon then
    (if |vFrom.x| > |vFrom.z| then
      normalize ⟨-vFrom.y, vFrom.x, 0, 0⟩
    else
      normalize ⟨0, -vFrom.z, vFrom.y, 0⟩)
  else
    normalize ⟨vFrom.y * vTo.z - vFrom.z * vTo.y,
               vFrom.z * vTo.x - vFrom.x * vTo.z,
               vFrom.x * vTo.y - vFrom.y * vTo.x, r⟩

/-- THREE.Quaternion.invert: conjugation (rotation quaternions are unit). -/
def invert (q : Quat) : Quat := ⟨-q.x, -q.y, -q.z, q.w⟩

end Quat

/-- THREE.Vector3.applyQuaternion (r128 component formulas). -/
def Vec3.applyQuaternion (v : Vec3) (q : Quat) : Vec3 :=
  let ix := q.w * v.x + q.y * v.z - q.z * v.y
  let iy := q.w * v.y + q.z * v.x - q.x * v.z
  let iz := q.w * v.z + q.x * v.y - q.y * v.x
  let iw := -q.x * v.x - q.y * v.y - q.z * v.z
  ⟨ix * q.w + iw * (-q.x) + iy * (-q.z) - iz * (-q.y),
   iy * q.w + iw * (-q.y) + iz * (-q.x) - ix * (-q.z),
   iz * q.w + iw * (-q.z) + ix * (-q.y) - iy * (-q.x)⟩

/-- JavaScript Math.atan2. -/
noncomputable def atan2 (y x : ℝ) : ℝ :=
  if 0 < x then Real.arctan (y / x)
  else if x < 0 then
    (if 0 ≤ y then Real.arctan (y / x) + Real.pi else Real.arctan (y / x) - Real.pi)
  else
    (if 0 < y then Real.pi / 2 else if y < 0 then -(Real.pi / 2) else 0)

/-- THREE.Spherical: radius / theta / phi coordinates. -/
structure Spherical where
  radius : ℝ
  theta : ℝ
  phi : ℝ

/-- THREE.Spherical.setFromVector3 (via setFromCartesianCoords, r128):
`radius = sqrt(x²+y²+z²)`; for a nonzero radius, `theta = atan2(x, z)` and
`phi = acos(clamp(y / radius, -1, 1))`. -/
noncomputable def Spherical.setFromVector3 (v : Vec3) : Spherical :=
  let r := v.length
  if r = 0 then ⟨0, 0, 0⟩
  else ⟨r, atan2 v.x v.z, Real.arccos (max (-1) (min 1 (v.y / r)))⟩

/-- THREE.Vector3.setFromSpherical:
`sinPhiRadius = sin(phi)·radius`, `x = sinPhiRadius·sin(theta)`,
`y = cos(phi)·radius`, `z = sinPhiRadius·cos(theta)`. -/
noncomputable def Spherical.toVec3 (sp : Spherical) : Vec3 :=
  let sinPhiRadius := Real.sin sp.phi * sp.radius
  ⟨sinPhiRadius * Real.sin sp.theta, Real.cos sp.phi * sp.radius,
   sinPhiRadius * Real.cos sp.theta⟩

/-- The pattern `Math.max(lo, Math.min(hi, x))`, the clamping pattern of `update()`. -/
noncomputable def clampTo (lo hi x : ℝ) : ℝ := max lo (min hi x)

/-- Interaction states of the controller
(`{ NONE: -1, ROTATE: 0, DOLLY: 1, PAN: 2 }`). -/
inductive Mode where
  | idle
  | rotate
  | dolly
  | pan
  deriving DecidableEq

inductive MouseButton where
  | left
  | middle
  | right
  deriving DecidableEq

/-- State of the standalone OrbitControls class (orbit-controls.js).
`position`, `up` and `fov` are the attached camera's fields;
`clientHeight` is the DOM element's; start points of the three gestures
are kept as pairs of coordinates. -/
structure OrbitControls where
  enabled : Bool
  target : Vec3
  position : Vec3
  up : Vec3
  fov : ℝ
  clientHeight : ℝ
  enableDamping : Bool
  dampingFactor : ℝ
  minDistance : ℝ
  maxDistance : ℝ
  autoRotate : Bool
  autoRotateSpeed : ℝ
  currentMode : Mode
  sphericalRadius : ℝ
  sphericalTheta : ℝ
  sphericalPhi : ℝ
  deltaTheta : ℝ
  deltaPhi : ℝ
  panOffset : Vec3
  zoomChanged : Bool
  scale : ℝ
  rotateStartX : ℝ
  rotateStartY : ℝ
  panStartX : ℝ
  panStartY : ℝ
  dollyStartX : ℝ
  dollyStartY : ℝ

namespace OrbitControls

/-- Method `rotateLeft(angle)`: `sphericalDelta.theta -= angle`. -/
def rotateLeft (s : OrbitControls) (angle : ℝ) : OrbitControls :=
  { s with deltaTheta := s.deltaTheta - angle }

/-- Method `rotateUp(angle)`: `sphericalDelta.phi -= angle`. -/
def rotateUp (s : OrbitControls) (angle : ℝ) : OrbitControls :=
  { s with deltaPhi := s.deltaPhi - angle }

/-- Method `dollyIn(dollyScale)`: `scale /= dollyScale`. -/
noncomputable def dollyIn (s : OrbitControls) (dollyScale : ℝ) : OrbitControls :=
  { s with scale := s.scale / dollyScale, zoomChanged := true }

/-- Method `dollyOut(dollyScale)`: `scale *= dollyScale`. -/
noncomputable def dollyOut (s : OrbitControls) (dollyScale : ℝ) : OrbitControls :=
  { s with scale := s.scale * dollyScale, zoomChanged := true }

/-- Method `getZoomScale()`: `Math.pow(0.95, 1)`. -/
noncomputable def getZoomScale : ℝ := (0.95 : ℝ) ^ (1 : ℕ)

/-- Method `getAutoRotationAngle()`. -/
noncomputable def getAutoRotationAngle (s : OrbitControls) : ℝ :=
  2 * Real.pi / 60 / 60 * s.autoRotateSpeed

/-- Method `pan(deltaX, deltaY)`: accumulates a world-space offset into
`panOffset`, horizontally along `up × viewDirection` and vertically along
`up`, with magnitude proportional to `2·distanceToTarget·tan(fov/2)`. -/
noncomputable def pan (s : OrbitControls) (deltaX deltaY : ℝ) : OrbitControls :=
  let targetDistance := s.position.distanceTo s.target
  let panDistance := 2 * targetDistance * Real.tan (s.fov / 2 * Real.pi / 180)
  let offset1 := (-deltaX * panDistance / s.clientHeight) •
    Vec3.cross s.up (s.position - s.target).normalize
  let offset2 := (deltaY * panDistance / s.clientHeight) • s.up.normalize
  { s with panOffset := s.panOffset + offset1 + offset2 }

/-- The ROTATE branch shared by `onMouseMove` and one-finger `onTouchMove`:
`rotateDelta = (rotateEnd − rotateStart) · 0.01`, then
`rotateLeft(2π·rotateDelta.x / clientHeight)`,
`rotateUp(2π·rotateDelta.y / clientHeight)`, then
`rotateStart.copy(rotateEnd)`. -/
noncomputable def rotateAccum (s : OrbitControls) (ex ey : ℝ) : OrbitControls :=
  let dx := (ex - s.rotateStartX) * 0.01
  let dy := (ey - s.rotateStartY) * 0.01
  let s1 := rotateUp (rotateLeft s (2 * Real.pi * dx / s.clientHeight))
    (2 * Real.pi * dy / s.clientHeight)
  { s1 with rotateStartX := ex, rotateStartY := ey }

/-- Two-finger pinch distance computed by `onTouchStart` / `onTouchMove`:
`Math.sqrt(dx·dx + dy·dy)` of the inter-finger pixel delta. -/
noncomputable def touchPinchStartDistance (t0 t1 : ℝ × ℝ) : ℝ :=
  Real.sqrt ((t0.1 - t1.1) * (t0.1 - t1.1) + (t0.2 - t1.2) * (t0.2 - t1.2))

/-- Method `update()`: recomputes the spherical coordinates from
`position − target` (in the basis where `up` maps to the canonical +y),
applies auto-rotation and the accumulated deltas, clamps `phi` to
`[1e-6, π − 1e-6]` and `radius` (scaled by `scale`) to
`[minDistance, maxDistance]`, moves `target` by `panOffset`, recomputes
`position`, decays the deltas (fully without damping, geometrically with
it) and resets `scale` to 1.  (`lookAt` only changes the camera
orientation, which carries no further state here.) -/
noncomputable def update (s : OrbitControls) : OrbitControls :=
  let quat := Quat.setFromUnitVectors s.up ⟨0, 1, 0⟩
  let quatInverse := Quat.invert quat
  let offset := (s.position - s.target).applyQuaternion quat
  let sph := Spherical.setFromVector3 offset
  let dTheta :=
    if s.autoRotate ∧ s.currentMode = Mode.idle then
      s.deltaTheta - s.getAutoRotationAngle
    else s.deltaTheta
  let theta := sph.theta + dTheta
  let phi := clampTo 0.000001 (Real.pi - 0.000001) (sph.phi + s.deltaPhi)
  let radius := clampTo s.minDistance s.maxDistance (sph.radius * s.scale)
  let target := s.target + s.panOffset
  let position :=
    target + (Spherical.toVec3 ⟨radius, theta, phi⟩).applyQuaternion quatInverse
  { s with
    sphericalRadius := radius
    sphericalTheta := theta
    sphericalPhi := phi
    target := target
    position := position
    deltaTheta := if s.enableDamping then dTheta * (1 - s.dampingFactor) else 0
    deltaPhi := if s.enableDamping then s.deltaPhi * (1 - s.dampingFactor) else 0
    panOffset := if s.enableDamping then (1 - s.dampingFactor) • s.panOffset else 0
    scale := 1 }

/-- Handler `onMouseDown(event)`. -/
def onMouseDown (s : OrbitControls) (button : MouseButton) (cx cy : ℝ) :
    OrbitControls :=
  if s.enabled then
    match button with
    | MouseButton.left =>
      { s with currentMode := Mode.rotate, rotateStartX := cx, rotateStartY := cy }
    | MouseButton.middle =>
      { s with currentMode := Mode.dolly, dollyStartX := cx, dollyStartY := cy }
    | MouseButton.right =>
      { s with currentMode := Mode.pan, panStartX := cx, panStartY := cy }
  else s

/-- Handler `onMouseMove(event)`: dispatches on the current interaction state and
ends with `this.update()`. -/
noncomputable def onMouseMove (s : OrbitControls) (cx cy : ℝ) : OrbitControls :=
  if s.enabled then
    update (match s.currentMode with
      | Mode.rotate => rotateAccum s cx cy
      | Mode.dolly =>
        let dy := cy - s.dollyStartY
        let s1 :=
          if 0 < dy then dollyIn s getZoomScale
          else if dy < 0 then dollyOut s getZoomScale
          else s
        { s1 with dollyStartX := cx, dollyStartY := cy }
      | Mode.pan =>
        let s1 := pan s ((cx - s.panStartX) * 0.01) ((cy - s.panStartY) * 0.01)
        { s1 with panStartX := cx, panStartY := cy }
      | Mode.idle => s)
  else s

/-- Handler `onMouseUp()`. -/
def onMouseUp (s : OrbitControls) : OrbitControls :=
  if s.enabled then { s with currentMode := Mode.idle } else s

/-- Handler `onMouseWheel(event)`: dolly then `this.update()`. -/
noncomputable def onMouseWheel (s : OrbitControls) (deltaY : ℝ) : OrbitControls :=
  if s.enabled then
    update (if deltaY < 0 then dollyOut s getZoomScale
      else if 0 < deltaY then dollyIn s getZoomScale
      else s)
  else s

/-- Handler `onTouchStart(event)`. -/
noncomputable def onTouchStart (s : OrbitControls) (touches : List (ℝ × ℝ)) :
    OrbitControls :=
  if s.enabled then
    match touches with
    | [t0] =>
      { s with currentMode := Mode.rotate, rotateStartX := t0.1, rotateStartY := t0.2 }
    | [t0, t1] =>
      { s with currentMode := Mode.dolly, dollyStartX := 0,
               dollyStartY := touchPinchStartDistance t0 t1 }
    | _ => s
  else s

/-- Handler `onTouchMove(event)`: one finger rotates (same conversion as the mouse
path), two fingers dolly with
`dollyDelta.y = pow(dollyEnd.y / dollyStart.y, 0.1)`; no trailing
`update()` (the per-frame loop performs it). -/
noncomputable def onTouchMove (s : OrbitControls) (touches : List (ℝ × ℝ)) :
    OrbitControls :=
  if s.enabled then
    match touches with
    | [t0] => rotateAccum s t0.1 t0.2
    | [t0, t1] =>
      let distance := touchPinchStartDistance t0 t1
      let s1 := dollyIn s (Real.rpow (distance / s.dollyStartY) 0.1)
      { s1 with dollyStartX := 0, dollyStartY := distance }
    | _ => s
  else s

/-- Handler `onTouchEnd()`. -/
def onTouchEnd (s : OrbitControls) : OrbitControls :=
  if s.enabled then { s with currentMode := Mode.idle } else s

/-- Input events the controller reacts to; `frame` is the per-frame
`controls.update()` of the render loop. -/
inductive Event where
  | mouseDown (button : MouseButton) (cx cy : ℝ)
  | mouseMove (cx cy : ℝ)
  | mouseUp
  | wheel (deltaY : ℝ)
  | touchStart (touches : List (ℝ × ℝ))
  | touchMove (touches : List (ℝ × ℝ))
  | touchEnd
  | frame

noncomputable def applyEvent (s : OrbitControls) (e : Event) : OrbitControls :=
  match e with
  | Event.mouseDown b cx cy => onMouseDown s b cx cy
  | Event.mouseMove cx cy => onMouseMove s cx cy
  | Event.mouseUp => onMouseUp s
  | Event.wheel dy => onMouseWheel s dy
  | Event.touchStart ts => onTouchStart s ts
  | Event.touchMove ts => onTouchMove s ts
  | Event.touchEnd => onTouchEnd s
  | Event.frame => update s

noncomputable def run (s : OrbitControls) (events : List Event) : OrbitControls :=
  events.foldl applyEvent s

end OrbitControls

end SolarSpec

namespace SolarSpec

/-- The eight keys of the `planetData` table in script.js. -/
inductive PKey where
  | mercury
  | venus
  | earth
  | mars
  | jupiter
  | saturn
  | uranus
  | neptune
  deriving DecidableEq

/-- Per-planet state: the static `data` fields used by the motion update
(`radius`, `distance`, `orbitalSpeed`, `rotationSpeed`) together with the
mutable `angle`, mesh rotation, orbit-group rotation and the per-planet
`individualSpeed` multiplier. -/
structure Planet where
  radius : ℝ
  distance : ℝ
  orbitalSpeed : ℝ
  rotationSpeed : ℝ
  angle : ℝ
  meshRotationY : ℝ
  orbitRotationY : ℝ
  individualSpeed : ℝ

/-- The moon record stored by `addEarthMoon`: angle, distance, speed and
the mesh position / rotation it drives. -/
structure Moon where
  angle : ℝ
  distance : ℝ
  speed : ℝ
  posX : ℝ
  posZ : ℝ
  meshRotationY : ℝ

/-- Method `addEarthMoon(planet, planetRadius)`: the moon starts at
`(planetRadius·3, 0, 0)` with `angle = 0`, `distance = planetRadius·3`,
`speed = 0.05`. -/
noncomputable def addEarthMoon (planetRadius : ℝ) : Moon :=
  { angle := 0
    distance := planetRadius * 3
    speed := 0.05
    posX := planetRadius * 3
    posZ := 0
    meshRotationY := 0 }

/-- Key for the `this.moons` object (one entry, `earth`, in the baseline). -/
inductive MKey where
  | earth
  deriving DecidableEq

/-- State of the `SolarSystem` class that the per-frame loop mutates. -/
structure SolarSystem where
  isPaused : Bool
  globalSpeedMultiplier : ℝ
  sunRotationY : ℝ
  starFieldRotationY : ℝ
  planets : PKey → Planet
  moons : MKey → Moon
  controls : OrbitControls

/-- Body of the per-planet loop in `updatePlanets`:
`speedMultiplier = globalSpeedMultiplier · individualSpeed`;
`angle += orbitalSpeed · speedMultiplier`; `orbitGroup.rotation.y = angle`;
`mesh.rotation.y += rotationSpeed · speedMultiplier`. -/
noncomputable def Planet.update (globalSpeedMultiplier : ℝ) (p : Planet) : Planet :=
  let speedMultiplier := globalSpeedMultiplier * p.individualSpeed
  let angle := p.angle + p.orbitalSpeed * speedMultiplier
  { p with
    angle := angle
    orbitRotationY := angle
    meshRotationY := p.meshRotationY + p.rotationSpeed * speedMultiplier }

/-- Body of the moon loop in `updatePlanets`:
`angle += speed · globalSpeedMultiplier`;
`position.x = cos(angle)·distance`; `position.z = sin(angle)·distance`;
`mesh.rotation.y += 0.02 · globalSpeedMultiplier`. -/
noncomputable def Moon.update (globalSpeedMultiplier : ℝ) (m : Moon) : Moon :=
  let angle := m.angle + m.speed * globalSpeedMultiplier
  { m with
    angle := angle
    posX := Real.cos angle * m.distance
    posZ := Real.sin angle * m.distance
    meshRotationY := m.meshRotationY + 0.02 * globalSpeedMultiplier }

namespace SolarSystem

/-- Method `updatePlanets(deltaTime)`: rotates the Sun by
`0.005 · globalSpeedMultiplier`, updates every planet and every moon.
`deltaTime` is accepted and ignored, exactly as in the source (rates are
per-frame increments). -/
noncomputable def updatePlanets (s : SolarSystem) (deltaTime : ℝ) : SolarSystem :=
  { s with
    sunRotationY := s.sunRotationY + 0.005 * s.globalSpeedMultiplier
    planets := fun k => (s.planets k).update s.globalSpeedMultiplier
    moons := fun k => (s.moons k).update s.globalSpeedMultiplier }

/-- Method `updateStarField()`. -/
noncomputable def updateStarField (s : SolarSystem) : SolarSystem :=
  { s with starFieldRotationY := s.starFieldRotationY + 0.0001 }

/-- One pass of `animate()`: when not paused, `updatePlanets(deltaTime)`
and `updateStarField()`; then `controls.update()` unconditionally. -/
noncomputable def animate (s : SolarSystem) (deltaTime : ℝ) : SolarSystem :=
  let s1 := if s.isPaused then s else (s.updatePlanets deltaTime).updateStarField
  { s1 with controls := s1.controls.update }

/-- A run of the render loop: one `animate` pass per clock delta. -/
noncomputable def runTicks (s : SolarSystem) (deltas : List ℝ) : SolarSystem :=
  deltas.foldl (fun acc dt => acc.animate dt) s

/-- Method `togglePause()`. -/
def togglePause (s : SolarSystem) : SolarSystem :=
  { s with isPaused := !s.isPaused }

/-- The `input` handler of the global-speed slider:
`this.globalSpeedMultiplier = parseFloat(e.target.value)`. -/
noncomputable def onGlobalSpeedInput (s : SolarSystem) (v : ℝ) : SolarSystem :=
  { s with globalSpeedMultiplier := v }

/-- The `input` handler of a per-planet speed slider:
`this.planets[key].individualSpeed = parseFloat(e.target.value)`. -/
noncomputable def onPlanetSpeedInput (s : SolarSystem) (key : PKey) (v : ℝ) :
    SolarSystem :=
  { s with planets := fun k =>
      if k = key then { s.planets k with individualSpeed := v } else s.planets k }

end SolarSystem

/-- Modelled from the spec: a range input element clamps its value into the
domain declared by its `min`/`max` attributes before the handler reads
`e.target.value` (the per-planet sliders are created in `setupUI` with
`min="0" max="3"`; the global slider's markup declares the documented
`[0, 5]` domain). -/
noncomputable def rangeInputValue (lo hi v : ℝ) : ℝ := max lo (min hi v)

/-- Modelled from the spec: the world position of a body on its orbit pivot
is recomputed from the orbital angle and orbital radius as
`x = cos(angle)·distance`, `z = sin(angle)·distance` (the scene-graph
rotation itself is performed by the external graphics runtime). -/
noncomputable def planetWorldPos (angle distance : ℝ) : Vec3 :=
  ⟨Real.cos angle * distance, 0, Real.sin angle * distance⟩

/-- Modelled from the spec: the body's local x/z position recomputed from
its orbital angle, `x = cos(angle)·orbitalRadius`,
`z = sin(angle)·orbitalRadius`. -/
noncomputable def bodyLocalXZ (angle distance : ℝ) : ℝ × ℝ :=
  (Real.cos angle * distance, Real.sin angle * distance)

/-- Designator accepted by `focusOnObject` (a planet key or the Sun). -/
inductive FocusTarget where
  | sun
  | planet (key : PKey)

/-- The ephemeral focus transition captured by `focusOnObject`:
start/end camera positions, the destination of the controls target, start
time and the fixed 2000 ms duration. -/
structure FocusAnim where
  startPosition : Vec3
  endPosition : Vec3
  targetPosition : Vec3
  startTime : ℝ
  duration : ℝ

/-- Method `focusOnObject(objectName)`: the Sun focuses the origin at distance 15;
a planet focuses its current world position at distance `radius · 8`; the
end position offsets the destination by `(d, d·0.5, d)`; duration 2000 ms. -/
noncomputable def SolarSystem.focusOnObject (s : SolarSystem) (t : FocusTarget)
    (startTime : ℝ) : FocusAnim :=
  match t with
  | FocusTarget.sun =>
    { startPosition := s.controls.position
      endPosition := (⟨0, 0, 0⟩ : Vec3) + ⟨(15 : ℝ), 15 * 0.5, 15⟩
      targetPosition := ⟨0, 0, 0⟩
      startTime := startTime
      duration := 2000 }
  | FocusTarget.planet k =>
    let p := s.planets k
    let targetPosition := planetWorldPos p.angle p.distance
    let distance := p.radius * 8
    { startPosition := s.controls.position
      endPosition := targetPosition + ⟨distance, distance * 0.5, distance⟩
      targetPosition := targetPosition
      startTime := startTime
      duration := 2000 }

/-- The two interpolation assignments of one `animateCamera` frame:
`progress = min(elapsed / duration, 1)`, `eased = 1 − (1 − progress)³`,
`camera.position.lerpVectors(startPosition, endPosition, eased)`,
`controls.target.lerp(targetPosition, eased)`. -/
noncomputable def focusLerpStep (a : FocusAnim) (now : ℝ) (c : OrbitControls) :
    OrbitControls :=
  let elapsed := now - a.startTime
  let progress := min (elapsed / a.duration) 1
  let eased := 1 - (1 - progress) ^ 3
  { c with
    position := Vec3.lerpVectors a.startPosition a.endPosition eased
    target := c.target.lerp a.targetPosition eased }

/-- One full `animateCamera` frame: the two interpolation assignments
followed by `this.controls.update()`. -/
noncomputable def animateCameraStep (a : FocusAnim) (now : ℝ) (c : OrbitControls) :
    OrbitControls :=
  (focusLerpStep a now c).update

/-- JavaScript division, with `none` marking the non-finite double
(Infinity or NaN) produced by a zero denominator; once non-finite, a value
stays non-finite under the power and division that follow. -/
noncomputable def jsDiv (a b : ℝ) : Option ℝ :=
  if b = 0 then none else some (a / b)

/-- The two-finger `onTouchMove` dolly factor
`Math.pow(dollyEnd.y / dollyStart.y, 0.1)` in the non-finite-tracking
model: `none` when the stored initial pinch distance is zero. -/
noncomputable def touchPinchDollyFactor (dollyStartY : ℝ) (t0 t1 : ℝ × ℝ) :
    Option ℝ :=
  (jsDiv (OrbitControls.touchPinchStartDistance t0 t1) dollyStartY).map
    (fun q => Real.rpow q 0.1)

/-- Method `dollyIn(dollyScale)` applied to a possibly non-finite dolly factor:
`scale /= dollyScale` stays non-finite (Infinity gives scale 0 only for a
positive infinite factor; a NaN factor poisons the scale, and the model
conservatively marks every non-finite intermediate as a fault). -/
noncomputable def dollyInChecked (scale : ℝ) (factor : Option ℝ) : Option ℝ :=
  factor.bind (fun f => jsDiv scale f)

/-- The controller configuration of this repository: constructor defaults
of orbit-controls.js overridden by `setupControls()` (damping 0.05 enabled,
distance clamped to [10, 400], no auto-rotation) with the initial camera
state of `setupCamera()` (position `(0, 50, 120)`, default up vector,
fov 75). -/
noncomputable def baseControls : OrbitControls :=
  { enabled := true
    target := ⟨0, 0, 0⟩
    position := ⟨0, 50, 120⟩
    up := ⟨0, 1, 0⟩
    fov := 75
    clientHeight := 600
    enableDamping := true
    dampingFactor := 0.05
    minDistance := 10
    maxDistance := 400
    autoRotate := false
    autoRotateSpeed := 0.5
    currentMode := Mode.idle
    sphericalRadius := 130
    sphericalTheta := 0
    sphericalPhi := 1
    deltaTheta := 0
    deltaPhi := 0
    panOffset := 0
    zoomChanged := false
    scale := 1
    rotateStartX := 0
    rotateStartY := 0
    panStartX := 0
    panStartY := 0
    dollyStartX := 0
    dollyStartY := 0 }

/-- The single test body of the end-to-end check: `orbitalRadius = 24`,
`baseOrbitalRate = 0.01` (Earth's row of `planetData`), starting
`orbitalAngle = 0`, `individualSpeedMultiplier = 1`. -/
noncomputable def c3Planet : Planet :=
  { radius := 2
    distance := 24
    orbitalSpeed := 0.01
    rotationSpeed := 0.02
    angle := 0
    meshRotationY := 0
    orbitRotationY := 0
    individualSpeed := 1 }

/-- A concrete session state: global multiplier 2, not paused, the test
body in every planet slot, the earth moon, the repository's controller
configuration. -/
noncomputable def c3System : SolarSystem :=
  { isPaused := false
    globalSpeedMultiplier := 2
    sunRotationY := 0
    starFieldRotationY := 0
    planets := fun _ => c3Planet
    moons := fun _ => addEarthMoon 2
    controls := baseControls }

end SolarSpec

namespace SolarSpec

/-- The counterexample controller: the repository configuration on a
100-pixel-high viewport, with the drag anchored at the origin. -/
noncomputable def c2Controls : OrbitControls :=
  { baseControls with clientHeight := 100 }

/-- A concrete focus transition for exercising one interpolation frame. -/
noncomputable def c6Anim : FocusAnim :=
  { startPosition := ⟨0, 0, 0⟩
    endPosition := ⟨8, 0, 0⟩
    targetPosition := ⟨1, 0, 0⟩
    startTime := 0
    duration := 2000 }

/-- The concrete session with the pause flag raised. -/
noncomputable def pausedSystem : SolarSystem :=
  { c3System with isPaused := true }

/-- Reassignment of every planet's `individualSpeed` multiplier (the state
reachable through the per-planet sliders). -/
noncomputable def setIndividualSpeeds (s : SolarSystem) (f : PKey → ℝ) :
    SolarSystem :=
  { s with planets := fun k => { s.planets k with individualSpeed := f k } }

/- ------------------------------------------------------------------ -/
/- Supporting lemmas. -/
/- ------------------------------------------------------------------ -/

@[simp] lemma Vec3.add_x (a b : Vec3) : (a + b).x = a.x + b.x := rfl

@[simp] lemma Vec3.add_y (a b : Vec3) : (a + b).y = a.y + b.y := rfl

@[simp] lemma Vec3.add_z (a b : Vec3) : (a + b).z = a.z + b.z := rfl

@[simp] lemma Vec3.sub_x (a b : Vec3) : (a - b).x = a.x - b.x := rfl

@[simp] lemma Vec3.sub_y (a b : Vec3) : (a - b).y = a.y - b.y := rfl

@[simp] lemma Vec3.sub_z (a b : Vec3) : (a - b).z = a.z - b.z := rfl

@[simp] lemma Vec3.smul_x (c : ℝ) (a : Vec3) : (c • a).x = c * a.x := rfl

@[simp] lemma Vec3.smul_y (c : ℝ) (a : Vec3) : (c • a).y = c * a.y := rfl

@[simp] lemma Vec3.smul_z (c : ℝ) (a : Vec3) : (c • a).z = c * a.z := rfl

@[simp] lemma Vec3.zero_x : (0 : Vec3).x = 0 := rfl

@[simp] lemma Vec3.zero_y : (0 : Vec3).y = 0 := rfl

@[simp] lemma Vec3.zero_z : (0 : Vec3).z = 0 := rfl

@[simp] lemma Vec3.add_zero (a : Vec3) : a + (0 : Vec3) = a := by
  ext <;> simp

lemma clampTo_le_left (lo hi x : ℝ) : lo ≤ clampTo lo hi x := le_max_left _ _

lemma clampTo_le_right {lo hi : ℝ} (x : ℝ) (h : lo ≤ hi) : clampTo lo hi x ≤ hi :=
  max_le h (min_le_left _ _)

lemma clampTo_eq_self {lo hi x : ℝ} (h1 : lo ≤ x) (h2 : x ≤ hi) :
    clampTo lo hi x = x := by
  unfold clampTo
  rw [min_eq_right h2, max_eq_right h1]

namespace OrbitControls

lemma update_scale (s : OrbitControls) : s.update.scale = 1 := rfl

lemma update_target (s : OrbitControls) :
    s.update.target = s.target + s.panOffset := rfl

lemma update_minDistance (s : OrbitControls) :
    s.update.minDistance = s.minDistance := rfl

lemma update_maxDistance (s : OrbitControls) :
    s.update.maxDistance = s.maxDistance := rfl

lemma update_sphericalPhi (s : OrbitControls) :
    s.update.sphericalPhi =
      clampTo 0.000001 (Real.pi - 0.000001)
        ((Spherical.setFromVector3
          ((s.position - s.target).applyQuaternion
            (Quat.setFromUnitVectors s.up ⟨0, 1, 0⟩))).phi + s.deltaPhi) := rfl

lemma update_sphericalRadius (s : OrbitControls) :
    s.update.sphericalRadius =
      clampTo s.minDistance s.maxDistance
        ((Spherical.setFromVector3
          ((s.position - s.target).applyQuaternion
            (Quat.setFromUnitVectors s.up ⟨0, 1, 0⟩))).radius * s.scale) := rfl

/-- No handler changes the configured distance bounds. -/
lemma applyEvent_minDistance (s : OrbitControls) (e : Event) :
    (applyEvent s e).minDistance = s.minDistance := by
  cases e with
  | mouseDown b cx cy =>
    cases b <;> simp [applyEvent, onMouseDown] <;> first | rfl | (split_ifs <;> rfl)
  | mouseMove cx cy =>
    by_cases he : s.enabled <;>
      cases hm : s.currentMode <;>
        simp [applyEvent, onMouseMove, he, hm, update_minDistance, rotateAccum,
          rotateLeft, rotateUp, pan, dollyIn, dollyOut] <;> first | rfl | (split_ifs <;> rfl)
  | mouseUp => by_cases he : s.enabled <;> simp [applyEvent, onMouseUp, he]
  | wheel dy =>
    by_cases he : s.enabled <;>
      simp [applyEvent, onMouseWheel, he, update_minDistance, dollyIn, dollyOut] <;>
        first | rfl | (split_ifs <;> rfl)
  | touchStart ts =>
    by_cases he : s.enabled <;>
      rcases ts with _ | ⟨t0, _ | ⟨t1, _ | _⟩⟩ <;>
        simp [applyEvent, onTouchStart, he]
  | touchMove ts =>
    by_cases he : s.enabled <;>
      rcases ts with _ | ⟨t0, _ | ⟨t1, _ | _⟩⟩ <;>
        simp [applyEvent, onTouchMove, he, rotateAccum, rotateLeft, rotateUp, dollyIn]
  | touchEnd => by_cases he : s.enabled <;> simp [applyEvent, onTouchEnd, he]
  | frame => exact update_minDistance s

lemma applyEvent_maxDistance (s : OrbitControls) (e : Event) :
    (applyEvent s e).maxDistance = s.maxDistance := by
  cases e with
  | mouseDown b cx cy =>
    cases b <;> simp [applyEvent, onMouseDown] <;> first | rfl | (split_ifs <;> rfl)
  | mouseMove cx cy =>
    by_cases he : s.enabled <;>
      cases hm : s.currentMode <;>
        simp [applyEvent, onMouseMove, he, hm, update_maxDistance, rotateAccum,
          rotateLeft, rotateUp, pan, dollyIn, dollyOut] <;> first | rfl | (split_ifs <;> rfl)
  | mouseUp => by_cases he : s.enabled <;> simp [applyEvent, onMouseUp, he]
  | wheel dy =>
    by_cases he : s.enabled <;>
      simp [applyEvent, onMouseWheel, he, update_maxDistance, dollyIn, dollyOut] <;>
        first | rfl | (split_ifs <;> rfl)
  | touchStart ts =>
    by_cases he : s.enabled <;>
      rcases ts with _ | ⟨t0, _ | ⟨t1, _ | _⟩⟩ <;>
        simp [applyEvent, onTouchStart, he]
  | touchMove ts =>
    by_cases he : s.enabled <;>
      rcases ts with _ | ⟨t0, _ | ⟨t1, _ | _⟩⟩ <;>
        simp [applyEvent, onTouchMove, he, rotateAccum, rotateLeft, rotateUp, dollyIn]
  | touchEnd => by_cases he : s.enabled <;> simp [applyEvent, onTouchEnd, he]
  | frame => exact update_maxDistance s

lemma run_minDistance (s : OrbitControls) (events : List Event) :
    (run s events).minDistance = s.minDistance := by
  induction events generalizing s with
  | nil => rfl
  | cons e rest ih => exact (ih (applyEvent s e)).trans (applyEvent_minDistance s e)

lemma run_maxDistance (s : OrbitControls) (events : List Event) :
    (run s events).maxDistance = s.maxDistance := by
  induction events generalizing s with
  | nil => rfl
  | cons e rest ih => exact (ih (applyEvent s e)).trans (applyEvent_maxDistance s e)

end OrbitControls

end SolarSpec

namespace SolarSpec

/-- C8: Immediately after every `update()` call of the Camera Controller
completes, `scale == 1`: the zoom scale is a one-shot multiplier applied to
the radius exactly once by that update and then reset, never persisting
across updates. -/
theorem scale_reset_after_update (s : OrbitControls) : s.update.scale = 1 :=
  OrbitControls.update_scale s

/-- C2 counterexample: on a 100-pixel-high viewport, a ROTATE move of
100 horizontal pixels accumulates `-(π/50)` into `sphericalDelta.theta`,
not the claimed `2π·Δ/clientHeight = 2π`: the handler first multiplies the
pixel delta by 0.01. -/
theorem rotate_conversion_counterexample :
    (c2Controls.rotateAccum 100 0).deltaTheta = -(Real.pi / 50) ∧
    (c2Controls.rotateAccum 100 0).deltaTheta ≠
      c2Controls.deltaTheta -
        2 * Real.pi * (100 - c2Controls.rotateStartX) / c2Controls.clientHeight := by
  have h : (c2Controls.rotateAccum 100 0).deltaTheta = -(Real.pi / 50) := by
    simp [OrbitControls.rotateAccum, OrbitControls.rotateLeft,
      OrbitControls.rotateUp, c2Controls, baseControls]
    ring
  refine ⟨h, ?_⟩
  rw [h]
  simp only [c2Controls, baseControls]
  intro hc
  norm_num at hc
  nlinarith [Real.pi_pos, hc]

/-- C2 (amended): during a ROTATE interaction the pixel delta Δ is first
scaled by the 0.01 sensitivity factor, then converted by
`2π / clientHeight`, so the angular delta accumulated into
`sphericalDelta` is `2π·(0.01·Δ)/clientHeight` (subtracted from
theta/phi); the mouse handler follows the accumulation with `update()`,
the one-finger touch handler performs the same accumulation. -/
theorem rotate_conversion_amended (s : OrbitControls) (ex ey tx ty : ℝ) :
    (s.rotateAccum ex ey).deltaTheta =
      s.deltaTheta - 2 * Real.pi * ((ex - s.rotateStartX) * 0.01) / s.clientHeight ∧
    (s.rotateAccum ex ey).deltaPhi =
      s.deltaPhi - 2 * Real.pi * ((ey - s.rotateStartY) * 0.01) / s.clientHeight ∧
    OrbitControls.onMouseMove
        { s with enabled := true, currentMode := Mode.rotate } ex ey =
      (OrbitControls.rotateAccum
        { s with enabled := true, currentMode := Mode.rotate } ex ey).update ∧
    OrbitControls.onTouchMove
        { s with enabled := true, currentMode := Mode.rotate } [(tx, ty)] =
      OrbitControls.rotateAccum
        { s with enabled := true, currentMode := Mode.rotate } tx ty := by
  refine ⟨rfl, rfl, ?_, ?_⟩ <;>
    simp [OrbitControls.onMouseMove, OrbitControls.onTouchMove]

/-- C3: for the body with `orbitalRadius = 24`, `baseOrbitalRate = 0.01`
and starting `orbitalAngle = 0`, one `updatePlanets` pass with
`globalSpeedMultiplier = 2` and `individualSpeed = 1` yields
`orbitalAngle = 0.02`, and the local x/z position recomputed from that
angle equals `(24·cos 0.02, 24·sin 0.02)` within 1e-9. -/
theorem single_advance_end_to_end :
    ((c3System.updatePlanets 1).planets PKey.earth).angle = 0.02 ∧
    |(bodyLocalXZ ((c3System.updatePlanets 1).planets PKey.earth).angle 24).1 -
      24 * Real.cos 0.02| ≤ 1e-9 ∧
    |(bodyLocalXZ ((c3System.updatePlanets 1).planets PKey.earth).angle 24).2 -
      24 * Real.sin 0.02| ≤ 1e-9 := by
  have ha : ((c3System.updatePlanets 1).planets PKey.earth).angle = 0.02 := by
    simp [SolarSystem.updatePlanets, Planet.update, c3System, c3Planet]
    norm_num
  refine ⟨ha, ?_, ?_⟩ <;> rw [ha] <;> simp [bodyLocalXZ]
  · rw [show Real.cos 0.02 * 24 - 24 * Real.cos 0.02 = 0 from by ring, abs_zero]
    norm_num
  · rw [show Real.sin 0.02 * 24 - 24 * Real.sin 0.02 = 0 from by ring, abs_zero]
    norm_num

/-- C4: a two-finger touchstart with both fingers at the same point stores
an initial pinch distance of zero, and the two-finger touchmove dolly step
then divides by that zero distance with no guard: in the
non-finite-tracking model, the dolly factor and the resulting zoom scale
are both non-finite (`none`), a numeric fault the code propagates. -/
theorem degenerate_pinch_fault :
    (baseControls.onTouchStart [((3 : ℝ), 4), (3, 4)]).dollyStartY = 0 ∧
    OrbitControls.touchPinchStartDistance ((3 : ℝ), 4) (3, 4) = 0 ∧
    touchPinchDollyFactor 0 ((3 : ℝ), 9) (3, 4) = none ∧
    dollyInChecked 1 (touchPinchDollyFactor 0 ((3 : ℝ), 9) (3, 4)) = none := by
  have hd : OrbitControls.touchPinchStartDistance ((3 : ℝ), 4) (3, 4) = 0 := by
    simp [OrbitControls.touchPinchStartDistance]
  refine ⟨?_, hd, ?_, ?_⟩
  · simp [OrbitControls.onTouchStart, baseControls, hd]
  · simp [touchPinchDollyFactor, jsDiv]
  · simp [dollyInChecked, touchPinchDollyFactor, jsDiv]

/-- C5: every value reaching the two speed-multiplier stores goes through
a range input that clamps it into the documented domain ([0,5] global,
[0,3] per body); the stored value is exactly the clamp of the assigned
value — in-domain values are stored unchanged, out-of-domain values are
clamped, never rejected and never stored out of range. -/
theorem speed_multiplier_clamping (s : SolarSystem) (v : ℝ) (k : PKey) :
    (s.onGlobalSpeedInput (rangeInputValue 0 5 v)).globalSpeedMultiplier =
      max 0 (min 5 v) ∧
    0 ≤ max (0 : ℝ) (min 5 v) ∧ max (0 : ℝ) (min 5 v) ≤ 5 ∧
    ((s.onPlanetSpeedInput k (rangeInputValue 0 3 v)).planets k).individualSpeed =
      max 0 (min 3 v) ∧
    0 ≤ max (0 : ℝ) (min 3 v) ∧ max (0 : ℝ) (min 3 v) ≤ 3 := by
  refine ⟨rfl, le_max_left _ _, max_le (by norm_num) (min_le_left _ _), ?_,
    le_max_left _ _, max_le (by norm_num) (min_le_left _ _)⟩
  simp [SolarSystem.onPlanetSpeedInput, rangeInputValue]

/-- C6 counterexample: one interpolation frame at the transition midpoint
(progress 1/2) moves the controls target by the eased fraction 7/8, not by
the un-eased linear fraction 1/2: the target update is
`target.lerp(targetPosition, eased)`. -/
theorem focus_target_easing_counterexample :
    ((focusLerpStep c6Anim 1000 baseControls).target).x = 7 / 8 ∧
    (focusLerpStep c6Anim 1000 baseControls).target ≠
      baseControls.target.lerp c6Anim.targetPosition
        (min ((1000 - c6Anim.startTime) / c6Anim.duration) 1) := by
  have hx : ((focusLerpStep c6Anim 1000 baseControls).target).x = 7 / 8 := by
    simp [focusLerpStep, Vec3.lerp, c6Anim, baseControls]
    norm_num [min_eq_left (by norm_num : (1000 : ℝ) / 2000 ≤ 1)]
  refine ⟨hx, fun hc => ?_⟩
  have := congrArg Vec3.x hc
  rw [hx] at this
  simp [Vec3.lerp, c6Anim, baseControls] at this
  rw [min_eq_left (by norm_num : (1000 : ℝ) / 2000 ≤ 1)] at this
  norm_num at this

/-- C6 (amended): each focus frame computes
`eased = 1 − (1 − min(elapsed/duration, 1))³` and uses that eased fraction
for both writes: the camera position interpolates between the captured
start and end positions with parameter `eased`, and the controls target is
moved toward the destination by an incremental lerp from its current value
with the same eased fraction (not an un-eased linear interpolation). -/
theorem focus_step_interpolation_amended (a : FocusAnim) (now : ℝ)
    (c : OrbitControls) :
    (focusLerpStep a now c).position =
      a.startPosition +
        (1 - (1 - min ((now - a.startTime) / a.duration) 1) ^ 3) •
          (a.endPosition - a.startPosition) ∧
    (focusLerpStep a now c).target =
      c.target +
        (1 - (1 - min ((now - a.startTime) / a.duration) 1) ^ 3) •
          (a.targetPosition - c.target) := by
  exact ⟨rfl, rfl⟩

/-- C9: with the pause flag raised, any number of render-loop passes
leaves every planet's orbital angle and rotation, every moon, and even the
Sun's rotation untouched, while `controls.update()` still runs once per
pass. -/
theorem pause_freezes_orbits (s : SolarSystem) (deltas : List ℝ)
    (h : s.isPaused = true) :
    (s.runTicks deltas).planets = s.planets ∧
    (s.runTicks deltas).moons = s.moons ∧
    (s.runTicks deltas).sunRotationY = s.sunRotationY ∧
    (s.runTicks deltas).controls =
      OrbitControls.update^[deltas.length] s.controls := by
  induction deltas generalizing s with
  | nil => exact ⟨rfl, rfl, rfl, rfl⟩
  | cons dt rest ih =>
    have hstep : s.animate dt = { s with controls := s.controls.update } := by
      simp [SolarSystem.animate, h]
    have hrun : s.runTicks (dt :: rest) = (s.animate dt).runTicks rest := rfl
    have hp : ({ s with controls := s.controls.update } : SolarSystem).isPaused
        = true := h
    obtain ⟨h1, h2, h3, h4⟩ := ih _ hp
    rw [hrun, hstep]
    refine ⟨h1, h2, h3, ?_⟩
    rw [h4, List.length_cons, Function.iterate_succ_apply]

/-- Witness for C9 at the concrete paused session and three frames. -/
theorem pause_freezes_orbits_witness :
    pausedSystem.isPaused = true ∧
    ((pausedSystem.runTicks [1, 1, 1]).planets = pausedSystem.planets ∧
     (pausedSystem.runTicks [1, 1, 1]).moons = pausedSystem.moons ∧
     (pausedSystem.runTicks [1, 1, 1]).sunRotationY = pausedSystem.sunRotationY ∧
     (pausedSystem.runTicks [1, 1, 1]).controls =
       OrbitControls.update^[([1, 1, 1] : List ℝ).length] pausedSystem.controls) :=
  ⟨rfl, pause_freezes_orbits pausedSystem [1, 1, 1] rfl⟩

/-- C10: on an unpaused frame the moon's orbital angle advances by exactly
its fixed speed (0.05, set by `addEarthMoon`) times the global multiplier
and its self-rotation by 0.02 times the global multiplier; reassigning
every planet's `individualSpeed` multiplier leaves the moon update of
`updatePlanets` unchanged. -/
theorem moon_independent_of_parent_multiplier (gm deltaTime r : ℝ) (m : Moon)
    (s : SolarSystem) (f : PKey → ℝ) :
    (m.update gm).angle = m.angle + m.speed * gm ∧
    (m.update gm).meshRotationY = m.meshRotationY + 0.02 * gm ∧
    (addEarthMoon r).speed = 0.05 ∧
    ((setIndividualSpeeds s f).updatePlanets deltaTime).moons =
      (s.updatePlanets deltaTime).moons := by
  exact ⟨rfl, rfl, rfl, rfl⟩

end SolarSpec

namespace SolarSpec

/-- C1: for every initial controller state with
`minDistance ≤ maxDistance` and every sequence of pointer / touch / wheel
events (rotate, pan, and dolly inputs among them), at the end of every
`update()` call the spherical `phi` lies in `[1e-6, π − 1e-6]` and the
spherical `radius` lies in `[minDistance, maxDistance]`. -/
theorem spherical_clamp_invariant (s0 : OrbitControls)
    (events : List OrbitControls.Event)
    (h : s0.minDistance ≤ s0.maxDistance) :
    (1e-6 : ℝ) ≤ ((s0.run events).update).sphericalPhi ∧
    ((s0.run events).update).sphericalPhi ≤ Real.pi - 1e-6 ∧
    s0.minDistance ≤ ((s0.run events).update).sphericalRadius ∧
    ((s0.run events).update).sphericalRadius ≤ s0.maxDistance := by
  have hmin : (s0.run events).minDistance = s0.minDistance :=
    OrbitControls.run_minDistance s0 events
  have hmax : (s0.run events).maxDistance = s0.maxDistance :=
    OrbitControls.run_maxDistance s0 events
  refine ⟨?_, ?_, ?_, ?_⟩
  · rw [OrbitControls.update_sphericalPhi]
    exact clampTo_le_left _ _ _
  · rw [OrbitControls.update_sphericalPhi]
    exact clampTo_le_right _ (by linarith [Real.pi_gt_three])
  · rw [OrbitControls.update_sphericalRadius, hmin, hmax]
    exact clampTo_le_left _ _ _
  · rw [OrbitControls.update_sphericalRadius, hmin, hmax]
    exact clampTo_le_right _ h

/-- Witness for C1: the repository configuration, a drag-and-zoom event
sequence, bounds 10 ≤ 400. -/
theorem spherical_clamp_invariant_witness :
    baseControls.minDistance ≤ baseControls.maxDistance ∧
    ((1e-6 : ℝ) ≤
      ((baseControls.run
        [OrbitControls.Event.mouseDown MouseButton.left 0 0,
         OrbitControls.Event.mouseMove 30 40,
         OrbitControls.Event.wheel 120,
         OrbitControls.Event.frame]).update).sphericalPhi ∧
     ((baseControls.run
        [OrbitControls.Event.mouseDown MouseButton.left 0 0,
         OrbitControls.Event.mouseMove 30 40,
         OrbitControls.Event.wheel 120,
         OrbitControls.Event.frame]).update).sphericalPhi ≤ Real.pi - 1e-6 ∧
     baseControls.minDistance ≤
      ((baseControls.run
        [OrbitControls.Event.mouseDown MouseButton.left 0 0,
         OrbitControls.Event.mouseMove 30 40,
         OrbitControls.Event.wheel 120,
         OrbitControls.Event.frame]).update).sphericalRadius ∧
     ((baseControls.run
        [OrbitControls.Event.mouseDown MouseButton.left 0 0,
         OrbitControls.Event.mouseMove 30 40,
         OrbitControls.Event.wheel 120,
         OrbitControls.Event.frame]).update).sphericalRadius ≤
      baseControls.maxDistance) :=
  ⟨by norm_num [baseControls],
   spherical_clamp_invariant baseControls
     [OrbitControls.Event.mouseDown MouseButton.left 0 0,
      OrbitControls.Event.mouseMove 30 40,
      OrbitControls.Event.wheel 120,
      OrbitControls.Event.frame] (by norm_num [baseControls])⟩

/- Supporting lemmas for the focus-convergence analysis. -/

lemma quat_id_canonical :
    Quat.setFromUnitVectors ⟨0, 1, 0⟩ ⟨0, 1, 0⟩ = ⟨0, 0, 0, 1⟩ := by
  have h4 : Real.sqrt (4 : ℝ) = 2 := by
    rw [show (4 : ℝ) = 2 ^ 2 by norm_num, Real.sqrt_sq (by norm_num : (0 : ℝ) ≤ 2)]
  simp only [Quat.setFromUnitVectors, Vec3.dot, Quat.numberEpsilon]
  norm_num
  simp only [Quat.normalize]
  norm_num [h4]

lemma applyQuaternion_id (v : Vec3) : v.applyQuaternion ⟨0, 0, 0, 1⟩ = v := by
  ext <;> simp [Vec3.applyQuaternion]

lemma invert_id : Quat.invert ⟨0, 0, 0, 1⟩ = ⟨0, 0, 0, 1⟩ := by
  ext <;> simp [Quat.invert]

lemma lerpVectors_one (v1 v2 : Vec3) : Vec3.lerpVectors v1 v2 1 = v2 := by
  ext <;> simp [Vec3.lerpVectors]

lemma lerp_one (t v : Vec3) : t.lerp v 1 = v := by
  ext <;> simp [Vec3.lerp]

lemma arccos_third_lb : (0.000001 : ℝ) ≤ Real.arccos (1 / 3) := by
  have hc : (1 / 3 : ℝ) ≤ Real.cos 0.000001 := by
    have h1 : Real.cos (Real.pi / 3) ≤ Real.cos 0.000001 :=
      Real.cos_le_cos_of_nonneg_of_le_pi (by norm_num)
        (by linarith [Real.pi_gt_three]) (by linarith [Real.pi_gt_three])
    rw [Real.cos_pi_div_three] at h1
    linarith
  have hmem1 : (1 / 3 : ℝ) ∈ Set.Icc (-1 : ℝ) 1 := by norm_num
  have hmem2 : Real.cos 0.000001 ∈ Set.Icc (-1 : ℝ) 1 :=
    ⟨Real.neg_one_le_cos _, Real.cos_le_one _⟩
  have h2 : Real.arccos (Real.cos 0.000001) ≤ Real.arccos (1 / 3) :=
    (Real.strictAntiOn_arccos.le_iff_le hmem2 hmem1).mpr hc
  rwa [Real.arccos_cos (by norm_num) (by linarith [Real.pi_gt_three])] at h2

lemma arccos_third_ub : Real.arccos (1 / 3) ≤ Real.pi - 0.000001 := by
  have h1 : Real.arccos (1 / 3) ≤ Real.pi / 2 :=
    Real.arccos_le_pi_div_two.mpr (by norm_num)
  linarith [Real.pi_gt_three]

end SolarSpec

namespace SolarSpec

lemma update_position (s : OrbitControls) :
    s.update.position =
      (s.target + s.panOffset) +
        (Spherical.toVec3
          ⟨clampTo s.minDistance s.maxDistance
            ((Spherical.setFromVector3
              ((s.position - s.target).applyQuaternion
                (Quat.setFromUnitVectors s.up ⟨0, 1, 0⟩))).radius * s.scale),
           (Spherical.setFromVector3
              ((s.position - s.target).applyQuaternion
                (Quat.setFromUnitVectors s.up ⟨0, 1, 0⟩))).theta +
             (if s.autoRotate ∧ s.currentMode = Mode.idle then
               s.deltaTheta - s.getAutoRotationAngle
             else s.deltaTheta),
           clampTo 0.000001 (Real.pi - 0.000001)
             ((Spherical.setFromVector3
              ((s.position - s.target).applyQuaternion
                (Quat.setFromUnitVectors s.up ⟨0, 1, 0⟩))).phi +
               s.deltaPhi)⟩).applyQuaternion
          (Quat.invert (Quat.setFromUnitVectors s.up ⟨0, 1, 0⟩)) := rfl

/-- A quiescent controller (no pending deltas, no auto-rotation, canonical
up vector) whose camera offset from the target is `(d, d/2, d)` with the
resulting spherical radius `1.5·d` inside the distance bounds is a fixed
point of `update()` on `position` and `target`. -/
lemma update_quiescent (s : OrbitControls) (d : ℝ)
    (hup : s.up = ⟨0, 1, 0⟩) (hscale : s.scale = 1) (hdt : s.deltaTheta = 0)
    (hdp : s.deltaPhi = 0) (hpan : s.panOffset = 0)
    (hauto : s.autoRotate = false) (hd : 0 < d)
    (hoffset : s.position - s.target = ⟨d, d * 0.5, d⟩)
    (hmin : s.minDistance ≤ 1.5 * d) (hmax : 1.5 * d ≤ s.maxDistance) :
    s.update.position = s.position ∧ s.update.target = s.target := by
  have hquat : Quat.setFromUnitVectors s.up ⟨0, 1, 0⟩ = ⟨0, 0, 0, 1⟩ := by
    rw [hup]; exact quat_id_canonical
  have hoff2 : (s.position - s.target).applyQuaternion
      (Quat.setFromUnitVectors s.up ⟨0, 1, 0⟩) = ⟨d, d * 0.5, d⟩ := by
    rw [hquat, applyQuaternion_id, hoffset]
  have hlen : (⟨d, d * 0.5, d⟩ : Vec3).length = 1.5 * d := by
    simp only [Vec3.length, Vec3.lengthSq]
    rw [show d * d + d * 0.5 * (d * 0.5) + d * d = (1.5 * d) ^ 2 by ring]
    exact Real.sqrt_sq (by linarith)
  have hsph : Spherical.setFromVector3 ⟨d, d * 0.5, d⟩ =
      ⟨1.5 * d, Real.arctan 1, Real.arccos (1 / 3)⟩ := by
    simp only [Spherical.setFromVector3, hlen]
    rw [if_neg (by linarith : ¬(1.5 * d = 0))]
    have hdiv : d * 0.5 / (1.5 * d) = 1 / 3 := by
      rw [div_eq_iff (by linarith : (1.5 : ℝ) * d ≠ 0)]
      ring
    have hatan : atan2 d d = Real.arctan 1 := by
      simp only [atan2, if_pos hd]
      rw [div_self hd.ne']
    rw [hatan, hdiv]
    norm_num
  have hback : Spherical.toVec3 ⟨1.5 * d, Real.arctan 1, Real.arccos (1 / 3)⟩ =
      (⟨d, d * 0.5, d⟩ : Vec3) := by
    have h9 : Real.sqrt (9 : ℝ) = 3 := by
      rw [show (9 : ℝ) = 3 ^ 2 by norm_num, Real.sqrt_sq (by norm_num : (0 : ℝ) ≤ 3)]
    have h4 : Real.sqrt (4 : ℝ) = 2 := by
      rw [show (4 : ℝ) = 2 ^ 2 by norm_num, Real.sqrt_sq (by norm_num : (0 : ℝ) ≤ 2)]
    have h8 : Real.sqrt (8 : ℝ) = 2 * Real.sqrt 2 := by
      rw [show (8 : ℝ) = 4 * 2 by norm_num,
        Real.sqrt_mul (by norm_num : (0 : ℝ) ≤ 4), h4]
    have h2pos : (0 : ℝ) < Real.sqrt 2 := Real.sqrt_pos.mpr (by norm_num)
    have hx : Real.sqrt 8 / Real.sqrt 9 * (3 / 2 * d) * (Real.sqrt 2)⁻¹ = d := by
      rw [h8, h9]
      field_simp
      ring
    simp only [Spherical.toVec3]
    rw [Real.sin_arccos, Real.cos_arccos (by norm_num) (by norm_num),
      Real.sin_arctan, Real.cos_arctan]
    norm_num
    refine ⟨hx, by ring, hx⟩
  have hclampr : clampTo s.minDistance s.maxDistance ((1.5 * d) * s.scale) =
      1.5 * d := by
    rw [hscale, mul_one]
    exact clampTo_eq_self hmin hmax
  have hclampp : clampTo 0.000001 (Real.pi - 0.000001)
      (Real.arccos (1 / 3) + s.deltaPhi) = Real.arccos (1 / 3) := by
    rw [hdp, add_zero]
    exact clampTo_eq_self arccos_third_lb arccos_third_ub
  have hpos : s.target + (⟨d, d * 0.5, d⟩ : Vec3) = s.position := by
    have hx := congrArg Vec3.x hoffset
    have hy := congrArg Vec3.y hoffset
    have hz := congrArg Vec3.z hoffset
    simp only [Vec3.sub_x, Vec3.sub_y, Vec3.sub_z] at hx hy hz
    ext <;> simp <;> linarith
  constructor
  · rw [update_position, hoff2, hsph, hpan, Vec3.add_zero]
    simp only [hauto, Bool.false_eq_true, false_and, if_false]
    rw [hdt, add_zero, hclampr, hclampp, hquat, invert_id,
      applyQuaternion_id, hback, hpos]
  · rw [OrbitControls.update_target, hpan, Vec3.add_zero]

end SolarSpec

namespace SolarSpec

/-- C7 counterexample: focusing the test body (angle 0, orbital radius 24)
and stepping past the 2000 ms duration leaves the controls target at the
body's world position captured when the transition started, while one
motion update during the transition has moved the body to angle 0.02 — so
the target does not equal the body's world position at the moment the
transition ends. -/
theorem focus_convergence_counterexample :
    (animateCameraStep
      (c3System.focusOnObject (FocusTarget.planet PKey.earth) 0) 2000
      c3System.controls).target = planetWorldPos 0 24 ∧
    ((c3System.updatePlanets 1).planets PKey.earth).angle = 0.02 ∧
    ¬((animateCameraStep
      (c3System.focusOnObject (FocusTarget.planet PKey.earth) 0) 2000
      c3System.controls).target =
        planetWorldPos ((c3System.updatePlanets 1).planets PKey.earth).angle 24) := by
  have hprog : min (((2000 : ℝ) - 0) / 2000) 1 = 1 := by norm_num
  have ht : (animateCameraStep
      (c3System.focusOnObject (FocusTarget.planet PKey.earth) 0) 2000
      c3System.controls).target = planetWorldPos 0 24 := by
    rw [animateCameraStep, OrbitControls.update_target]
    have hp : (focusLerpStep
        (c3System.focusOnObject (FocusTarget.planet PKey.earth) 0) 2000
        c3System.controls).panOffset = 0 := rfl
    rw [hp, Vec3.add_zero]
    have hlift : (focusLerpStep
        (c3System.focusOnObject (FocusTarget.planet PKey.earth) 0) 2000
        c3System.controls).target =
      Vec3.lerp c3System.controls.target
        (planetWorldPos c3Planet.angle c3Planet.distance)
        (1 - (1 - min (((2000 : ℝ) - 0) / 2000) 1) ^ 3) := rfl
    rw [hlift, hprog]
    norm_num [lerp_one]
    rfl
  have ha2 : ((c3System.updatePlanets 1).planets PKey.earth).angle = 0.02 := by
    simp [SolarSystem.updatePlanets, Planet.update, c3System, c3Planet]
    norm_num
  refine ⟨ht, ha2, fun hcon => ?_⟩
  rw [ha2] at hcon
  have hsame := ht.symm.trans hcon
  have hz := congrArg Vec3.z hsame
  simp [planetWorldPos] at hz
  have hsin : 0 < Real.sin 0.02 :=
    Real.sin_pos_of_pos_of_lt_pi (by norm_num) (by linarith [Real.pi_gt_three])
  nlinarith [hz, hsin]

/-- C7 (amended): starting a focus transition toward a body and stepping
time forward by at least the fixed 2000 ms duration (with the controller
otherwise quiescent and the end vantage inside the distance bounds) leaves
the camera position exactly at the precomputed end position and the
controls target equal to the body's world position captured at the moment
the transition started. -/
theorem focus_convergence_amended (s : SolarSystem) (k : PKey) (t0 now : ℝ)
    (hr : 0 < (s.planets k).radius)
    (hup : s.controls.up = ⟨0, 1, 0⟩)
    (hscale : s.controls.scale = 1)
    (hdt : s.controls.deltaTheta = 0)
    (hdp : s.controls.deltaPhi = 0)
    (hpan : s.controls.panOffset = 0)
    (hauto : s.controls.autoRotate = false)
    (hmin : s.controls.minDistance ≤ 1.5 * ((s.planets k).radius * 8))
    (hmax : 1.5 * ((s.planets k).radius * 8) ≤ s.controls.maxDistance)
    (hel : 2000 ≤ now - t0) :
    (animateCameraStep (s.focusOnObject (FocusTarget.planet k) t0) now
      s.controls).position =
      (s.focusOnObject (FocusTarget.planet k) t0).endPosition ∧
    (animateCameraStep (s.focusOnObject (FocusTarget.planet k) t0) now
      s.controls).target =
      planetWorldPos (s.planets k).angle (s.planets k).distance := by
  have hd0 : (0 : ℝ) < (s.planets k).radius * 8 := mul_pos hr (by norm_num)
  have hprog : min ((now -
      (s.focusOnObject (FocusTarget.planet k) t0).startTime) /
      (s.focusOnObject (FocusTarget.planet k) t0).duration) 1 = 1 := by
    have hsT : (s.focusOnObject (FocusTarget.planet k) t0).startTime = t0 := rfl
    have hdu : (s.focusOnObject (FocusTarget.planet k) t0).duration = 2000 := rfl
    rw [hsT, hdu]
    refine min_eq_right ?_
    rw [one_le_div (by norm_num : (0 : ℝ) < 2000)]
    linarith
  have h1 : focusLerpStep (s.focusOnObject (FocusTarget.planet k) t0) now
      s.controls =
      { s.controls with
        position := (s.focusOnObject (FocusTarget.planet k) t0).endPosition
        target := (s.focusOnObject (FocusTarget.planet k) t0).targetPosition } := by
    simp only [focusLerpStep, hprog]
    norm_num [lerpVectors_one, lerp_one]
  have hoffc2 : ({ s.controls with
      position := (s.focusOnObject (FocusTarget.planet k) t0).endPosition
      target := (s.focusOnObject (FocusTarget.planet k) t0).targetPosition } :
        OrbitControls).position -
      ({ s.controls with
      position := (s.focusOnObject (FocusTarget.planet k) t0).endPosition
      target := (s.focusOnObject (FocusTarget.planet k) t0).targetPosition } :
        OrbitControls).target =
      ⟨(s.planets k).radius * 8, (s.planets k).radius * 8 * 0.5,
        (s.planets k).radius * 8⟩ := by
    show (s.focusOnObject (FocusTarget.planet k) t0).endPosition -
      (s.focusOnObject (FocusTarget.planet k) t0).targetPosition = _
    have he : (s.focusOnObject (FocusTarget.planet k) t0).endPosition =
        (s.focusOnObject (FocusTarget.planet k) t0).targetPosition +
          ⟨(s.planets k).radius * 8, (s.planets k).radius * 8 * 0.5,
            (s.planets k).radius * 8⟩ := rfl
    rw [he]
    ext <;> simp
  have hq := update_quiescent
    ({ s.controls with
      position := (s.focusOnObject (FocusTarget.planet k) t0).endPosition
      target := (s.focusOnObject (FocusTarget.planet k) t0).targetPosition })
    ((s.planets k).radius * 8) hup hscale hdt hdp hpan hauto hd0 hoffc2 hmin hmax
  have hfinal : animateCameraStep (s.focusOnObject (FocusTarget.planet k) t0) now
      s.controls =
      ({ s.controls with
        position := (s.focusOnObject (FocusTarget.planet k) t0).endPosition
        target := (s.focusOnObject (FocusTarget.planet k) t0).targetPosition } :
          OrbitControls).update := by
    rw [animateCameraStep, h1]
  constructor
  · rw [hfinal]
    exact hq.1
  · rw [hfinal]
    exact hq.2

/-- Witness for C7 (amended) at the concrete session: the test body of the
end-to-end table, focus started at time 0, stepped to 2000 ms. -/
theorem focus_convergence_amended_witness :
    (0 : ℝ) < (c3System.planets PKey.earth).radius ∧
    ((animateCameraStep
        (c3System.focusOnObject (FocusTarget.planet PKey.earth) 0) 2000
        c3System.controls).position =
      (c3System.focusOnObject (FocusTarget.planet PKey.earth) 0).endPosition ∧
     (animateCameraStep
        (c3System.focusOnObject (FocusTarget.planet PKey.earth) 0) 2000
        c3System.controls).target =
      planetWorldPos (c3System.planets PKey.earth).angle
        (c3System.planets PKey.earth).distance) :=
  ⟨by norm_num [c3System, c3Planet],
   focus_convergence_amended c3System PKey.earth 0 2000
     (by norm_num [c3System, c3Planet]) rfl rfl rfl rfl rfl rfl
     (by norm_num [c3System, c3Planet, baseControls])
     (by norm_num [c3System, c3Planet, baseControls]) (by norm_num)⟩

end SolarSpec
